import Mathlib

/-!
Verification of the LiDAR sensor configuration descriptor
(`Unreal/CarlaUE4/Plugins/Carla/Source/Carla/Settings/LidarDescription.h`).

The repository ships only the class header: the field declarations with
their default initializers and the inline body of `AcceptVisitor` are in
the source; the bodies of `Load`, `Validate` and `Log` are declared but
not present.  Fields and `AcceptVisitor` are therefore embedded from the
header; `Load` and `Validate` are modelled from the specification.

Machine floats are modelled over `ℚ`: every literal appearing in the
header and the spec (32, 5000.0, -30.0, 1.5, 360.0, ...) is exactly
representable, and the only operations the component performs on float
fields are order comparisons and clamping, which are exact.  `uint32`
fields are modelled as `ℕ`; no arithmetic that could overflow occurs in
this component (fields are only assigned, compared and clamped).
-/

/-- The field set of `ULidarDescription` as declared in
`LidarDescription.h` (twelve data members, in declaration order). -/
structure ULidarDescription where
  Channels : ℕ
  Range : ℚ
  PointsPerSecond : ℕ
  RotationFrequency : ℚ
  UpperFovLimit : ℚ
  LowerFovLimit : ℚ
  ShowDebugPoints : Bool
  GaussianNoise : ℚ
  DropOutPattern : ℚ
  LidarType : ℕ
  DebugFlag : ℕ
  HorizonRange : ℚ
  deriving DecidableEq, Repr

/-- The default-constructed descriptor: the in-class initializers of
`LidarDescription.h` lines 29-83 (`Channels = 32u`, `Range = 5000.0f`,
`PointsPerSecond = 56000u`, `RotationFrequency = 10.0f`,
`UpperFovLimit = 10.0f`, `LowerFovLimit = -30.0f`,
`ShowDebugPoints = false`, `GaussianNoise = 0.0f`,
`DropOutPattern = 1.0f`, `LidarType = 1u`, `DebugFlag = 2016u`,
`HorizonRange = 360.0f`). -/
def defaultLidarDescription : ULidarDescription where
  Channels := 32
  Range := 5000
  PointsPerSecond := 56000
  RotationFrequency := 10
  UpperFovLimit := 10
  LowerFovLimit := -30
  ShowDebugPoints := false
  GaussianNoise := 0
  DropOutPattern := 1
  LidarType := 1
  DebugFlag := 2016
  HorizonRange := 360

/-- The conjunction of the section-3 invariants that must hold after
`Validate()`:  `Channels ≥ 1`, `Range > 0`, `PointsPerSecond ≥ Channels`,
`RotationFrequency > 0`, `UpperFovLimit ≥ LowerFovLimit`,
`0 ≤ DropOutPattern ≤ 1`, `GaussianNoise ≥ 0`, `0 < HorizonRange ≤ 360`. -/
def ValidState (d : ULidarDescription) : Prop :=
  1 ≤ d.Channels ∧
  0 < d.Range ∧
  d.Channels ≤ d.PointsPerSecond ∧
  0 < d.RotationFrequency ∧
  d.LowerFovLimit ≤ d.UpperFovLimit ∧
  0 ≤ d.DropOutPattern ∧
  d.DropOutPattern ≤ 1 ∧
  0 ≤ d.GaussianNoise ∧
  0 < d.HorizonRange ∧
  d.HorizonRange ≤ 360

instance (d : ULidarDescription) : Decidable (ValidState d) := by
  unfold ValidState; infer_instance

/-- Modelled from the spec: the body of `ULidarDescription::Validate` is
not in the repository.  The spec prescribes, for a field violating a
strict positivity invariant, coercion to a "smallest positive sentinel";
`ℚ` has no least positive element, so the model fixes one concrete
positive sentinel value (its exact magnitude is irrelevant to every
stated property, which only needs `0 < positiveSentinel ≤ 360`). -/
def positiveSentinel : ℚ := 1 / 1000000

/-- Modelled from the spec: the corrected descriptor produced by
`ULidarDescription::Validate`, whose body is not in the repository.
Per spec section 4.1, each section-3 invariant is checked in order and a
violating field is coerced to the nearest valid value: `Channels` to 1,
nonpositive `Range` and `RotationFrequency` to a positive sentinel,
`PointsPerSecond` up to the (already corrected) `Channels`,
an inverted `UpperFovLimit` clamped up to `LowerFovLimit`,
`DropOutPattern` clamped into `[0, 1]`, negative `GaussianNoise` to 0,
and `HorizonRange` into `(0, 360]`.  All other fields are untouched. -/
def validated (d : ULidarDescription) : ULidarDescription where
  Channels := if d.Channels < 1 then 1 else d.Channels
  Range := if d.Range ≤ 0 then positiveSentinel else d.Range
  PointsPerSecond :=
    let correctedChannels := if d.Channels < 1 then 1 else d.Channels
    if d.PointsPerSecond < correctedChannels then correctedChannels
    else d.PointsPerSecond
  RotationFrequency :=
    if d.RotationFrequency ≤ 0 then positiveSentinel else d.RotationFrequency
  UpperFovLimit :=
    if d.UpperFovLimit < d.LowerFovLimit then d.LowerFovLimit
    else d.UpperFovLimit
  LowerFovLimit := d.LowerFovLimit
  ShowDebugPoints := d.ShowDebugPoints
  GaussianNoise := if d.GaussianNoise < 0 then 0 else d.GaussianNoise
  DropOutPattern :=
    if d.DropOutPattern < 0 then 0
    else if 1 < d.DropOutPattern then 1
    else d.DropOutPattern
  LidarType := d.LidarType
  DebugFlag := d.DebugFlag
  HorizonRange :=
    if d.HorizonRange ≤ 0 then positiveSentinel
    else if 360 < d.HorizonRange then 360
    else d.HorizonRange

/-- Modelled from the spec: the warning diagnostics emitted by
`ULidarDescription::Validate` (body not in the repository).  Per spec
section 4.1, one warning naming the offending field is emitted for each
violated section-3 invariant, in the section-3 order; the inverted
field-of-view warning names `UpperFovLimit`, the field being clamped. -/
def diagnostics (d : ULidarDescription) : List String :=
  (if d.Channels < 1 then ["Channels"] else []) ++
  (if d.Range ≤ 0 then ["Range"] else []) ++
  (if d.PointsPerSecond < (if d.Channels < 1 then 1 else d.Channels) then
    ["PointsPerSecond"] else []) ++
  (if d.RotationFrequency ≤ 0 then ["RotationFrequency"] else []) ++
  (if d.UpperFovLimit < d.LowerFovLimit then ["UpperFovLimit"] else []) ++
  (if d.DropOutPattern < 0 ∨ 1 < d.DropOutPattern then
    ["DropOutPattern"] else []) ++
  (if d.GaussianNoise < 0 then ["GaussianNoise"] else []) ++
  (if d.HorizonRange ≤ 0 ∨ 360 < d.HorizonRange then
    ["HorizonRange"] else [])

/-- Modelled from the spec: `ULidarDescription::Validate` (body not in
the repository).  A total function from the current field state to the
corrected field state together with the emitted warning diagnostics:
clamp-and-continue, never fail. -/
def Validate (d : ULidarDescription) : ULidarDescription × List String :=
  (validated d, diagnostics d)

/-- Modelled from the spec: the external section-scoped key-value
configuration source (`FIniFile`), out of scope of the repository.
Each typed read is a partial map from section name and key; the typed
accessors below substitute the supplied default for a missing key, as
the spec's config-source contract requires. -/
structure FIniFile where
  natValues : String → String → Option ℕ
  ratValues : String → String → Option ℚ
  boolValues : String → String → Option Bool

def FIniFile.GetUInt32 (c : FIniFile) (s k : String) (dflt : ℕ) : ℕ :=
  (c.natValues s k).getD dflt

def FIniFile.GetFloat (c : FIniFile) (s k : String) (dflt : ℚ) : ℚ :=
  (c.ratValues s k).getD dflt

def FIniFile.GetBool (c : FIniFile) (s k : String) (dflt : Bool) : Bool :=
  (c.boolValues s k).getD dflt

/-- The configuration section in which no recognized key is present:
every lookup misses. -/
def emptyIniFile : FIniFile where
  natValues := fun _ _ => none
  ratValues := fun _ _ => none
  boolValues := fun _ _ => none

/-- Modelled from the spec: `ULidarDescription::Load` (body not in the
repository).  Per spec section 4.1, each recognized key is looked up in
the given section with the field's current value as the default, so a
missing key retains the current (default) field value and is never an
error.  Key spellings are the spec's (`UpperFOVLimit`, `LowerFOVLimit`,
`DropOffPattern`). -/
def Load (d : ULidarDescription) (config : FIniFile)
    (sectionName : String) : ULidarDescription where
  Channels := config.GetUInt32 sectionName "Channels" d.Channels
  Range := config.GetFloat sectionName "Range" d.Range
  PointsPerSecond :=
    config.GetUInt32 sectionName "PointsPerSecond" d.PointsPerSecond
  RotationFrequency :=
    config.GetFloat sectionName "RotationFrequency" d.RotationFrequency
  UpperFovLimit := config.GetFloat sectionName "UpperFOVLimit" d.UpperFovLimit
  LowerFovLimit := config.GetFloat sectionName "LowerFOVLimit" d.LowerFovLimit
  ShowDebugPoints :=
    config.GetBool sectionName "ShowDebugPoints" d.ShowDebugPoints
  GaussianNoise := config.GetFloat sectionName "GaussianNoise" d.GaussianNoise
  DropOutPattern :=
    config.GetFloat sectionName "DropOffPattern" d.DropOutPattern
  LidarType := config.GetUInt32 sectionName "LidarType" d.LidarType
  DebugFlag := config.GetUInt32 sectionName "DebugFlag" d.DebugFlag
  HorizonRange := config.GetFloat sectionName "HorizonRange" d.HorizonRange

/-- The twelve recognized configuration keys, one per descriptor field. -/
inductive LidarKey
  | channels | range | pointsPerSecond | rotationFrequency
  | upperFovLimit | lowerFovLimit | showDebugPoints | gaussianNoise
  | dropOutPattern | lidarType | debugFlag | horizonRange
  deriving DecidableEq, Repr

/-- The lookup for the given recognized key misses in the given section
of the given configuration source. -/
def keyAbsent (c : FIniFile) (s : String) : LidarKey → Prop
  | .channels => c.natValues s "Channels" = none
  | .range => c.ratValues s "Range" = none
  | .pointsPerSecond => c.natValues s "PointsPerSecond" = none
  | .rotationFrequency => c.ratValues s "RotationFrequency" = none
  | .upperFovLimit => c.ratValues s "UpperFOVLimit" = none
  | .lowerFovLimit => c.ratValues s "LowerFOVLimit" = none
  | .showDebugPoints => c.boolValues s "ShowDebugPoints" = none
  | .gaussianNoise => c.ratValues s "GaussianNoise" = none
  | .dropOutPattern => c.ratValues s "DropOffPattern" = none
  | .lidarType => c.natValues s "LidarType" = none
  | .debugFlag => c.natValues s "DebugFlag" = none
  | .horizonRange => c.ratValues s "HorizonRange" = none

/-- The field addressed by the given key has the same value in `d2` as
in `d1`. -/
def fieldRetained (d1 d2 : ULidarDescription) : LidarKey → Prop
  | .channels => d2.Channels = d1.Channels
  | .range => d2.Range = d1.Range
  | .pointsPerSecond => d2.PointsPerSecond = d1.PointsPerSecond
  | .rotationFrequency => d2.RotationFrequency = d1.RotationFrequency
  | .upperFovLimit => d2.UpperFovLimit = d1.UpperFovLimit
  | .lowerFovLimit => d2.LowerFovLimit = d1.LowerFovLimit
  | .showDebugPoints => d2.ShowDebugPoints = d1.ShowDebugPoints
  | .gaussianNoise => d2.GaussianNoise = d1.GaussianNoise
  | .dropOutPattern => d2.DropOutPattern = d1.DropOutPattern
  | .lidarType => d2.LidarType = d1.LidarType
  | .debugFlag => d2.DebugFlag = d1.DebugFlag
  | .horizonRange => d2.HorizonRange = d1.HorizonRange

/-- The visitor interface, restricted to the one overload this
descriptor dispatches to (`Visit(const ULidarDescription &)`); the
result type is abstract. -/
structure ISensorDescriptionVisitor (α : Type) where
  Visit : ULidarDescription → α

/-- From `LidarDescription.h` lines 16-19:
`void AcceptVisitor(ISensorDescriptionVisitor &Visitor) const
\x7b Visitor.Visit(*this); \x7d`.  The method is `const`, so the
descriptor it produces alongside the dispatch result is the unmodified
receiver; returning the pair makes that frame condition explicit. -/
def AcceptVisitor (d : ULidarDescription)
    (visitor : ISensorDescriptionVisitor α) : α × ULidarDescription :=
  (visitor.Visit d, d)

/-- The concrete input of the inverted-field-of-view scenario:
`UpperFovLimit = -5`, `LowerFovLimit = 10`, all other fields default. -/
def invertedFovInput : ULidarDescription :=
  { defaultLidarDescription with UpperFovLimit := -5, LowerFovLimit := 10 }

/-- The concrete input of the dropout-clamp scenario:
`DropOutPattern = 1.5`, all other fields default. -/
def dropOutInput : ULidarDescription :=
  { defaultLidarDescription with DropOutPattern := 1.5 }

/-- The concrete input of the negative-range scenario: `Range = -5`,
all other fields default. -/
def negativeRangeInput : ULidarDescription :=
  { defaultLidarDescription with Range := -5 }

/-- C1: for every descriptor, after `Validate` returns all section-3
invariants hold simultaneously: `Channels ≥ 1`, `Range > 0`,
`PointsPerSecond ≥ Channels`, `RotationFrequency > 0`,
`UpperFovLimit ≥ LowerFovLimit`, `0 ≤ DropOutPattern ≤ 1`,
`GaussianNoise ≥ 0`, `0 < HorizonRange ≤ 360`. -/
theorem validate_establishes_invariants (d : ULidarDescription) :
    ValidState (Validate d).1 := by
  unfold ValidState Validate validated
  refine ⟨?_, ?_, ?_, ?_, ?_, ?_, ?_, ?_, ?_, ?_⟩ <;>
    dsimp only <;> split_ifs <;>
      first
        | omega
        | (push_neg at *; linarith)
        | norm_num [positiveSentinel]

/-- C2: for every field state, `Validate` terminates with a result (it
is a total function into descriptor-and-diagnostics, never an error),
and it only coerces fields: every field of the result either equals the
input field or is the nearby valid value the spec prescribes for its
invariant; fields with no invariant are never touched. -/
theorem validate_total_and_clamps_only (d : ULidarDescription) :
    ((Validate d).1.Channels = d.Channels ∨ (Validate d).1.Channels = 1) ∧
    ((Validate d).1.Range = d.Range ∨
      (Validate d).1.Range = positiveSentinel) ∧
    ((Validate d).1.PointsPerSecond = d.PointsPerSecond ∨
      (Validate d).1.PointsPerSecond = (Validate d).1.Channels) ∧
    ((Validate d).1.RotationFrequency = d.RotationFrequency ∨
      (Validate d).1.RotationFrequency = positiveSentinel) ∧
    ((Validate d).1.UpperFovLimit = d.UpperFovLimit ∨
      (Validate d).1.UpperFovLimit = d.LowerFovLimit) ∧
    (Validate d).1.LowerFovLimit = d.LowerFovLimit ∧
    (Validate d).1.ShowDebugPoints = d.ShowDebugPoints ∧
    ((Validate d).1.GaussianNoise = d.GaussianNoise ∨
      (Validate d).1.GaussianNoise = 0) ∧
    ((Validate d).1.DropOutPattern = d.DropOutPattern ∨
      (Validate d).1.DropOutPattern = 0 ∨ (Validate d).1.DropOutPattern = 1) ∧
    (Validate d).1.LidarType = d.LidarType ∧
    (Validate d).1.DebugFlag = d.DebugFlag ∧
    ((Validate d).1.HorizonRange = d.HorizonRange ∨
      (Validate d).1.HorizonRange = positiveSentinel ∨
      (Validate d).1.HorizonRange = 360) := by
  unfold Validate validated
  refine ⟨?_, ?_, ?_, ?_, ?_, ?_, ?_, ?_, ?_, ?_, ?_, ?_⟩ <;>
    dsimp only <;> split_ifs <;> simp

/-- C3: loading the empty configuration section (every recognized key
absent) into a default-constructed descriptor yields exactly the twelve
documented default field values. -/
theorem load_empty_section_gives_defaults (s : String) :
    (Load defaultLidarDescription emptyIniFile s).Channels = 32 ∧
    (Load defaultLidarDescription emptyIniFile s).Range = 5000 ∧
    (Load defaultLidarDescription emptyIniFile s).PointsPerSecond = 56000 ∧
    (Load defaultLidarDescription emptyIniFile s).RotationFrequency = 10 ∧
    (Load defaultLidarDescription emptyIniFile s).UpperFovLimit = 10 ∧
    (Load defaultLidarDescription emptyIniFile s).LowerFovLimit = -30 ∧
    (Load defaultLidarDescription emptyIniFile s).ShowDebugPoints = false ∧
    (Load defaultLidarDescription emptyIniFile s).GaussianNoise = 0 ∧
    (Load defaultLidarDescription emptyIniFile s).DropOutPattern = 1 ∧
    (Load defaultLidarDescription emptyIniFile s).LidarType = 1 ∧
    (Load defaultLidarDescription emptyIniFile s).DebugFlag = 2016 ∧
    (Load defaultLidarDescription emptyIniFile s).HorizonRange = 360 :=
  ⟨rfl, rfl, rfl, rfl, rfl, rfl, rfl, rfl, rfl, rfl, rfl, rfl⟩

/-- C4: `Validate` is idempotent on valid states: on a descriptor
already satisfying every section-3 invariant it changes no field and
emits no diagnostics. -/
theorem validate_idempotent_on_valid (d : ULidarDescription)
    (h : ValidState d) : Validate d = (d, []) := by
  obtain ⟨h1, h2, h3, h4, h5, h6, h7, h8, h9, h10⟩ := h
  have c1 : ¬ d.Channels < 1 := by omega
  have c2 : ¬ d.Range ≤ 0 := not_le.mpr h2
  have c3 : ¬ d.PointsPerSecond < d.Channels := by omega
  have c4 : ¬ d.RotationFrequency ≤ 0 := not_le.mpr h4
  have c5 : ¬ d.UpperFovLimit < d.LowerFovLimit := not_lt.mpr h5
  have c6 : ¬ d.DropOutPattern < 0 := not_lt.mpr h6
  have c7 : ¬ 1 < d.DropOutPattern := not_lt.mpr h7
  have c8 : ¬ d.GaussianNoise < 0 := not_lt.mpr h8
  have c9 : ¬ d.HorizonRange ≤ 0 := not_le.mpr h9
  have c10 : ¬ 360 < d.HorizonRange := not_lt.mpr h10
  simp [Validate, validated, diagnostics, c1, c2, c3, c4, c5, c6, c7, c8,
    c9, c10]

/-- Witness for C4: the default descriptor is valid and `Validate`
leaves it untouched with no diagnostics. -/
theorem validate_idempotent_on_valid_witness :
    ValidState defaultLidarDescription ∧
      Validate defaultLidarDescription = (defaultLidarDescription, []) :=
  ⟨by decide, validate_idempotent_on_valid defaultLidarDescription (by decide)⟩

/-- C5: for every descriptor, configuration source, section and
recognized key whose lookup misses in that section, `Load` retains the
field's current value for that key; a missing key is never a failure
(`Load` is a total function). -/
theorem load_missing_key_retains_field (d : ULidarDescription)
    (c : FIniFile) (s : String) (k : LidarKey) (h : keyAbsent c s k) :
    fieldRetained d (Load d c s) k := by
  cases k <;>
    simp_all [keyAbsent, fieldRetained, Load, FIniFile.GetUInt32,
      FIniFile.GetFloat, FIniFile.GetBool]

/-- Witness for C5: the `Channels` key misses in the empty section and
the default `Channels` value is retained by `Load`. -/
theorem load_missing_key_retains_field_witness :
    keyAbsent emptyIniFile "Lidar" LidarKey.channels ∧
      fieldRetained defaultLidarDescription
        (Load defaultLidarDescription emptyIniFile "Lidar")
        LidarKey.channels :=
  ⟨rfl, load_missing_key_retains_field defaultLidarDescription emptyIniFile
    "Lidar" LidarKey.channels rfl⟩

/-- C6: for every descriptor with negative `Range`, `Validate` produces
`Range > 0` and emits exactly one diagnostic naming `Range`. -/
theorem validate_negative_range (d : ULidarDescription)
    (h : d.Range < 0) :
    0 < (Validate d).1.Range ∧ (Validate d).2.count "Range" = 1 := by
  have hr : d.Range ≤ 0 := le_of_lt h
  constructor
  · simp only [Validate, validated]
    rw [if_pos hr]
    norm_num [positiveSentinel]
  · simp only [Validate, diagnostics, List.count_append, if_pos hr]
    split_ifs <;> decide

/-- Witness for C6: at `Range = -5` with all other fields default,
`Validate` yields a positive `Range` and one `Range` diagnostic. -/
theorem validate_negative_range_witness :
    negativeRangeInput.Range < 0 ∧
      (0 < (Validate negativeRangeInput).1.Range ∧
        (Validate negativeRangeInput).2.count "Range" = 1) :=
  ⟨by decide, validate_negative_range negativeRangeInput (by decide)⟩

/-- C7: for the concrete inverted input `UpperFovLimit = -5`,
`LowerFovLimit = 10`, `Validate` produces a state with
`UpperFovLimit ≥ LowerFovLimit`. -/
theorem validate_inverted_fov :
    (Validate invertedFovInput).1.LowerFovLimit ≤
      (Validate invertedFovInput).1.UpperFovLimit := by decide

/-- C8: for the concrete input `DropOutPattern = 1.5`, `Validate`
clamps `DropOutPattern` to `1.0`. -/
theorem validate_dropout_clamped :
    (Validate dropOutInput).1.DropOutPattern = 1 := by
  norm_num [Validate, validated, dropOutInput, defaultLidarDescription]

/-- C9: for every visitor and descriptor, `AcceptVisitor` performs
exactly the double dispatch `visitor.Visit` applied to the descriptor
itself, and the descriptor it hands on is unchanged: the call has no
other effect. -/
theorem acceptVisitor_double_dispatch (α : Type)
    (visitor : ISensorDescriptionVisitor α) (d : ULidarDescription) :
    AcceptVisitor d visitor = (visitor.Visit d, d) := rfl

/-- C10: the default-constructed descriptor already satisfies every
section-3 invariant, and `Validate` has nothing to correct on it. -/
theorem default_descriptor_valid :
    ValidState defaultLidarDescription ∧
      Validate defaultLidarDescription = (defaultLidarDescription, []) := by
  decide
